import Mathlib

/-!
# Verification of the telemetry reconciliation core of iot-backend-room-monitoring

This file gives a shallow embedding of the reconciliation worker and the
admin timer-control operations of the Go backend, and proves properties of
that embedding.

Modelling conventions:
* Go `time.Time` values are modelled as exact rationals (`ℚ`), measured in
  seconds; `t2.Sub(t1).Seconds()` becomes `t2 - t1`, `t.After(u)` becomes
  `t > u`, `t.Before(u)` becomes `t < u`.
* Go `float64` arithmetic (the ACH metrics, sensor mirrors) is modelled as
  exact rational arithmetic.
* Go `int` / `uint` fields are modelled as `ℤ` / `ℕ`.
* Nullable pointer fields (`*time.Time`, `*float64`, ...) are modelled as
  `Option` values.
* The database rows of `theater_raw_telemetry` and `theater_live_state`
  (internal/models) are modelled as structures with the same fields.
-/

/-- Model of `models.TheaterRawTelemetry`: one raw-telemetry row per room,
written by the hardware.  Fields follow the Go struct in the models package. -/
structure TheaterRawTelemetry where
  id : ℕ
  roomID : Option ℕ
  roomName : String
  updatedAt : ℚ
  temp : Option ℚ
  humidity : Option ℤ
  roomPressure : Option ℚ
  roomStatus : ℤ
  lajuAliranAhu : ℤ
  volumeRuangan : ℤ
  logicAhu : ℤ
  oxygen : Option ℚ
  nitrous : Option ℚ
  air : Option ℚ
  vacuum : Option ℤ
  instrument : Option ℚ
  carbon : Option ℚ
  deriving Repr, DecidableEq

/-- Model of `models.TheaterLiveState`: the derived per-room row maintained
by the background worker and the admin timer operations. -/
structure TheaterLiveState where
  id : ℕ
  roomID : Option ℕ
  roomName : String
  achTheoretical : ℚ
  achEmpirical : ℚ
  currentTemp : ℚ
  currentPressure : ℚ
  currentLogicAhu : ℤ
  opStartTime : Option ℚ
  opAccumulatedSeconds : ℤ
  opIsRunning : Bool
  cdTargetTime : Option ℚ
  cdDurationSeconds : ℤ
  cdIsRunning : Bool
  ahuCycleStartTime : Option ℚ
  lastProcessedRawID : ℤ
  lastProcessedAt : Option ℚ
  oxygen : Option ℚ
  nitrous : Option ℚ
  air : Option ℚ
  vacuum : Option ℤ
  instrument : Option ℚ
  carbon : Option ℚ
  deriving Repr, DecidableEq

/-- METHOD 1 block of `WorkerService.processRoomTelemetry`
(worker_service.go lines 147-150): theoretical ACH = (laju_aliran * 3600) /
volume, computed only when both inputs are strictly positive; otherwise the
previous value is left in place. -/
def applyTheoreticalAch (liveState : TheaterLiveState)
    (raw : TheaterRawTelemetry) : TheaterLiveState :=
  if raw.lajuAliranAhu > 0 ∧ raw.volumeRuangan > 0 then
    { liveState with
        achTheoretical := ((raw.lajuAliranAhu * 3600 : ℤ) : ℚ) / (raw.volumeRuangan : ℚ) }
  else liveState

/-- METHOD 2 block of `WorkerService.processRoomTelemetry`
(worker_service.go lines 152-168): empirical-ACH edge detection.  A 0→1
edge records the cycle start; a 1→0 edge with a cycle open computes the
duration, updates the metric when the duration is strictly positive, and
clears the cycle start; every other combination does nothing. -/
def applyEmpiricalAch (liveState : TheaterLiveState)
    (raw : TheaterRawTelemetry) : TheaterLiveState :=
  if liveState.currentLogicAhu = 0 ∧ raw.logicAhu = 1 then
    { liveState with ahuCycleStartTime := some raw.updatedAt }
  else if liveState.currentLogicAhu = 1 ∧ raw.logicAhu = 0 then
    match liveState.ahuCycleStartTime with
    | some start =>
        let duration := raw.updatedAt - start
        let ended :=
          if duration > 0 then { liveState with achEmpirical := 3600 / duration }
          else liveState
        { ended with ahuCycleStartTime := none }
    | none => liveState
  else liveState

/-- Sensor-mirroring block of `WorkerService.processRoomTelemetry`
(worker_service.go lines 170-189): temperature and pressure are copied only
when present, the six gas readings are copied verbatim including nulls, the
trigger baseline is taken unconditionally, and the deprecated
last-processed raw id is recorded. -/
def applyMirrorFields (liveState : TheaterLiveState)
    (raw : TheaterRawTelemetry) : TheaterLiveState :=
  let s1 :=
    match raw.temp with
    | some t => { liveState with currentTemp := t }
    | none => liveState
  let s2 :=
    match raw.roomPressure with
    | some p => { s1 with currentPressure := p }
    | none => s1
  { s2 with
      oxygen := raw.oxygen
      nitrous := raw.nitrous
      air := raw.air
      vacuum := raw.vacuum
      instrument := raw.instrument
      carbon := raw.carbon
      currentLogicAhu := raw.logicAhu
      lastProcessedRawID := (raw.id : ℤ) }

/-- Countdown-expiry block of `WorkerService.processRoomTelemetry`
(worker_service.go lines 191-197): when the countdown is running with a
target set and `time.Now()` is strictly after the target, the running flag
is cleared. -/
def applyCountdownExpiry (now : ℚ) (liveState : TheaterLiveState) : TheaterLiveState :=
  if liveState.cdIsRunning then
    match liveState.cdTargetTime with
    | some target =>
        if now > target then { liveState with cdIsRunning := false } else liveState
    | none => liveState
  else liveState

/-- Model of `WorkerService.processRoomTelemetry` (internal/service/worker_service.go
lines 138-198): the per-room reconciliation transition.  `now` is the
wall-clock time read by `time.Now()` in the countdown-expiry check.  The Go
code mutates `liveState` in place; here the four commented blocks of the
source are applied in source order. -/
def processRoomTelemetry (now : ℚ) (liveState : TheaterLiveState)
    (raw : TheaterRawTelemetry) : TheaterLiveState :=
  applyCountdownExpiry now
    (applyMirrorFields (applyEmpiricalAch (applyTheoreticalAch liveState raw) raw) raw)

/-- Model of the row created by `TheaterRepository.CreateLiveStateIfNotExists`
(internal/repository/theater_repo.go): a Go struct literal carrying only the
room name; every other column takes its database default from the
`theater_live_state` schema (metrics 0, timers stopped, countdown duration
3600 seconds, all nullable columns NULL).  `CreateLiveStateForRoom` produces
the same defaults with a room id attached.  The fresh row's primary key is
irrelevant to the claims and is fixed at 0 here. -/
def createLiveStateIfNotExistsRow (roomName : String) : TheaterLiveState :=
  { id := 0
    roomID := none
    roomName := roomName
    achTheoretical := 0
    achEmpirical := 0
    currentTemp := 0
    currentPressure := 0
    currentLogicAhu := 0
    opStartTime := none
    opAccumulatedSeconds := 0
    opIsRunning := false
    cdTargetTime := none
    cdDurationSeconds := 3600
    cdIsRunning := false
    ahuCycleStartTime := none
    lastProcessedRawID := 0
    lastProcessedAt := none
    oxygen := none
    nitrous := none
    air := none
    vacuum := none
    instrument := none
    carbon := none }

/-- Model of steps 115-131 of `WorkerService.processNewTelemetry` for a single
room whose live state was located (or freshly created): the change-detection
gate, the call to `processRoomTelemetry`, and the update of the
last-processed high-water mark.  If the gate skips the room, the stored live
state is returned unchanged (steps 4-6 of the Go loop never run). -/
def processNewTelemetryStep (now : ℚ) (liveState : TheaterLiveState)
    (raw : TheaterRawTelemetry) : TheaterLiveState :=
  match liveState.lastProcessedAt with
  | some lp =>
      if ¬ raw.updatedAt > lp then liveState
      else
        { processRoomTelemetry now liveState raw with lastProcessedAt := some raw.updatedAt }
  | none =>
      { processRoomTelemetry now liveState raw with lastProcessedAt := some raw.updatedAt }

/-- The action `WorkerService.processNewTelemetry` takes for one raw row
after the live-state lookup (lines 76-113 of worker_service.go). -/
inductive WorkerRoomAction where
  /-- The raw row carries neither a room id nor a room name: logged and
  skipped. -/
  | skippedNoIdentifier : WorkerRoomAction
  /-- No live state exists and the raw row has no room name (only a room id):
  logged and skipped, no live state is created. -/
  | skippedCannotCreate : WorkerRoomAction
  /-- No live state exists; one is created via `CreateLiveStateIfNotExists`
  with the given room name, then reconciled. -/
  | createThenProcess (roomName : String) : WorkerRoomAction
  /-- A live state was found and is reconciled. -/
  | processExisting (liveState : TheaterLiveState) : WorkerRoomAction
  deriving Repr, DecidableEq

/-- Model of the per-row dispatch of `WorkerService.processNewTelemetry`
(worker_service.go lines 76-113).  `byID` and `byName` model the two lookup
maps built from the live-state table.  The Go code looks up by room id when
present, else by room name when non-empty, else skips; when the lookup
misses, it creates a live state only when the raw row carries a room name. -/
def processNewTelemetryDispatch (byID : ℕ → Option TheaterLiveState)
    (byName : String → Option TheaterLiveState)
    (raw : TheaterRawTelemetry) : WorkerRoomAction :=
  match raw.roomID with
  | some rid =>
      match byID rid with
      | some liveState => .processExisting liveState
      | none =>
          if raw.roomName = "" then .skippedCannotCreate
          else .createThenProcess raw.roomName
  | none =>
      if raw.roomName ≠ "" then
        match byName raw.roomName with
        | some liveState => .processExisting liveState
        | none => .createThenProcess raw.roomName
      else .skippedNoIdentifier

/-- Go's conversion `int(f)` of a float64 to an int truncates toward zero;
this is the corresponding operation on the exact rational model. -/
def intTrunc (q : ℚ) : ℤ :=
  if 0 ≤ q then ⌊q⌋ else ⌈q⌉

/-- Model of `TheaterService.UpdateOperationTimer`
(internal/service/theater_service.go): the stopwatch start/stop/reset state
machine.  `now` is the wall-clock time (`time.Now()`).  An `Except.error`
models the Go function returning an error before any update is written, so
the stored row is untouched; `Except.ok` carries the stored row after the
partial update map is applied. -/
def updateOperationTimer (now : ℚ) (state : TheaterLiveState)
    (action : String) : Except String TheaterLiveState :=
  if action = "start" then
    if state.opIsRunning then .error "timer is already running"
    else .ok { state with opStartTime := some now, opIsRunning := true }
  else if action = "stop" then
    if ¬ state.opIsRunning then .error "timer is not running"
    else
      match state.opStartTime with
      | some start =>
          .ok { state with
                  opAccumulatedSeconds :=
                    state.opAccumulatedSeconds + intTrunc (now - start)
                  opIsRunning := false }
      | none => .ok { state with opIsRunning := false }
  else if action = "reset" then
    .ok { state with opStartTime := none, opAccumulatedSeconds := 0, opIsRunning := false }
  else .error "invalid action: must be start, stop, or reset"

/-- Model of `TheaterService.UpdateCountdownTimer`
(internal/service/theater_service.go): the countdown start/stop/reset state
machine.  `durationMinutes` models the optional request parameter. -/
def updateCountdownTimer (now : ℚ) (state : TheaterLiveState)
    (action : String) (durationMinutes : Option ℤ) : Except String TheaterLiveState :=
  if action = "start" then
    if state.cdIsRunning then .error "countdown timer is already running"
    else
      let duration : ℤ :=
        match durationMinutes with
        | some d => if d > 0 then d else 60
        | none => 60
      .ok { state with
              cdTargetTime := some (now + (duration : ℚ) * 60)
              cdDurationSeconds := duration * 60
              cdIsRunning := true }
  else if action = "stop" then
    if ¬ state.cdIsRunning then .error "countdown timer is not running"
    else .ok { state with cdIsRunning := false }
  else if action = "reset" then
    .ok { state with cdTargetTime := none, cdDurationSeconds := 3600, cdIsRunning := false }
  else .error "invalid action: must be start, stop, or reset"

/-- Model of `TheaterService.AdjustCountdownTimer`
(internal/service/theater_service.go lines 181-227): requires the countdown
to be running with a target set; adds the signed minutes to the target; if
the new target is before `now` it is clamped to `now + 1` second.  Only the
`cd_target_time` column is written on success. -/
def adjustCountdownTimer (now : ℚ) (state : TheaterLiveState)
    (minutes : ℤ) : Except String TheaterLiveState :=
  if ¬ state.cdIsRunning then .error "countdown timer is not running"
  else
    match state.cdTargetTime with
    | none => .error "countdown timer has no target time set"
    | some target =>
        let newTargetTime := target + (minutes : ℚ) * 60
        let newTargetTime := if newTargetTime < now then now + 1 else newTargetTime
        .ok { state with cdTargetTime := some newTargetTime }

/-- A trace of per-room reconciliations: fold `processRoomTelemetry` over a
list of (wall-clock time, raw row) inputs, starting from a given live state. -/
def processTrace (init : TheaterLiveState)
    (inputs : List (ℚ × TheaterRawTelemetry)) : TheaterLiveState :=
  inputs.foldl (fun s p => processRoomTelemetry p.1 s p.2) init

/-- The last trigger value carried by a trace of raw inputs, with the
freshly provisioned baseline 0 for the empty trace. -/
def lastTrigger (inputs : List (ℚ × TheaterRawTelemetry)) : ℤ :=
  (inputs.map fun p => p.2.logicAhu).getLastD 0

/-- Example raw-telemetry row carrying a timestamp and a trigger value;
all optional sensor readings are null and the ACH inputs are zero. -/
def exRaw (t : ℚ) (logic : ℤ) : TheaterRawTelemetry :=
  { id := 1
    roomID := some 1
    roomName := "OT-01"
    updatedAt := t
    temp := none
    humidity := none
    roomPressure := none
    roomStatus := 1
    lajuAliranAhu := 0
    volumeRuangan := 0
    logicAhu := logic
    oxygen := none
    nitrous := none
    air := none
    vacuum := none
    instrument := none
    carbon := none }

/-- Example live state whose countdown is running toward target time 100;
all other fields are the provisioning defaults. -/
def cdLive : TheaterLiveState :=
  { createLiveStateIfNotExistsRow "OT-01" with
      cdIsRunning := true
      cdTargetTime := some 100 }

/-! ### Field-level frame lemmas for the reconciliation steps -/

@[simp] theorem applyTheoreticalAch_id (s : TheaterLiveState) (r : TheaterRawTelemetry) :
    (applyTheoreticalAch s r).id = s.id := by
  unfold applyTheoreticalAch; repeat' split
  all_goals rfl

@[simp] theorem applyTheoreticalAch_roomID (s : TheaterLiveState) (r : TheaterRawTelemetry) :
    (applyTheoreticalAch s r).roomID = s.roomID := by
  unfold applyTheoreticalAch; repeat' split
  all_goals rfl

@[simp] theorem applyTheoreticalAch_roomName (s : TheaterLiveState) (r : TheaterRawTelemetry) :
    (applyTheoreticalAch s r).roomName = s.roomName := by
  unfold applyTheoreticalAch; repeat' split
  all_goals rfl

@[simp] theorem applyTheoreticalAch_achEmpirical (s : TheaterLiveState) (r : TheaterRawTelemetry) :
    (applyTheoreticalAch s r).achEmpirical = s.achEmpirical := by
  unfold applyTheoreticalAch; repeat' split
  all_goals rfl

@[simp] theorem applyTheoreticalAch_currentTemp (s : TheaterLiveState) (r : TheaterRawTelemetry) :
    (applyTheoreticalAch s r).currentTemp = s.currentTemp := by
  unfold applyTheoreticalAch; repeat' split
  all_goals rfl

@[simp] theorem applyTheoreticalAch_currentPressure (s : TheaterLiveState) (r : TheaterRawTelemetry) :
    (applyTheoreticalAch s r).currentPressure = s.currentPressure := by
  unfold applyTheoreticalAch; repeat' split
  all_goals rfl

@[simp] theorem applyTheoreticalAch_currentLogicAhu (s : TheaterLiveState) (r : TheaterRawTelemetry) :
    (applyTheoreticalAch s r).currentLogicAhu = s.currentLogicAhu := by
  unfold applyTheoreticalAch; repeat' split
  all_goals rfl

@[simp] theorem applyTheoreticalAch_opStartTime (s : TheaterLiveState) (r : TheaterRawTelemetry) :
    (applyTheoreticalAch s r).opStartTime = s.opStartTime := by
  unfold applyTheoreticalAch; repeat' split
  all_goals rfl

@[simp] theorem applyTheoreticalAch_opAccumulatedSeconds (s : TheaterLiveState) (r : TheaterRawTelemetry) :
    (applyTheoreticalAch s r).opAccumulatedSeconds = s.opAccumulatedSeconds := by
  unfold applyTheoreticalAch; repeat' split
  all_goals rfl

@[simp] theorem applyTheoreticalAch_opIsRunning (s : TheaterLiveState) (r : TheaterRawTelemetry) :
    (applyTheoreticalAch s r).opIsRunning = s.opIsRunning := by
  unfold applyTheoreticalAch; repeat' split
  all_goals rfl

@[simp] theorem applyTheoreticalAch_cdTargetTime (s : TheaterLiveState) (r : TheaterRawTelemetry) :
    (applyTheoreticalAch s r).cdTargetTime = s.cdTargetTime := by
  unfold applyTheoreticalAch; repeat' split
  all_goals rfl

@[simp] theorem applyTheoreticalAch_cdDurationSeconds (s : TheaterLiveState) (r : TheaterRawTelemetry) :
    (applyTheoreticalAch s r).cdDurationSeconds = s.cdDurationSeconds := by
  unfold applyTheoreticalAch; repeat' split
  all_goals rfl

@[simp] theorem applyTheoreticalAch_cdIsRunning (s : TheaterLiveState) (r : TheaterRawTelemetry) :
    (applyTheoreticalAch s r).cdIsRunning = s.cdIsRunning := by
  unfold applyTheoreticalAch; repeat' split
  all_goals rfl

@[simp] theorem applyTheoreticalAch_ahuCycleStartTime (s : TheaterLiveState) (r : TheaterRawTelemetry) :
    (applyTheoreticalAch s r).ahuCycleStartTime = s.ahuCycleStartTime := by
  unfold applyTheoreticalAch; repeat' split
  all_goals rfl

@[simp] theorem applyTheoreticalAch_lastProcessedRawID (s : TheaterLiveState) (r : TheaterRawTelemetry) :
    (applyTheoreticalAch s r).lastProcessedRawID = s.lastProcessedRawID := by
  unfold applyTheoreticalAch; repeat' split
  all_goals rfl

@[simp] theorem applyTheoreticalAch_lastProcessedAt (s : TheaterLiveState) (r : TheaterRawTelemetry) :
    (applyTheoreticalAch s r).lastProcessedAt = s.lastProcessedAt := by
  unfold applyTheoreticalAch; repeat' split
  all_goals rfl

@[simp] theorem applyTheoreticalAch_oxygen (s : TheaterLiveState) (r : TheaterRawTelemetry) :
    (applyTheoreticalAch s r).oxygen = s.oxygen := by
  unfold applyTheoreticalAch; repeat' split
  all_goals rfl

@[simp] theorem applyTheoreticalAch_nitrous (s : TheaterLiveState) (r : TheaterRawTelemetry) :
    (applyTheoreticalAch s r).nitrous = s.nitrous := by
  unfold applyTheoreticalAch; repeat' split
  all_goals rfl

@[simp] theorem applyTheoreticalAch_air (s : TheaterLiveState) (r : TheaterRawTelemetry) :
    (applyTheoreticalAch s r).air = s.air := by
  unfold applyTheoreticalAch; repeat' split
  all_goals rfl

@[simp] theorem applyTheoreticalAch_vacuum (s : TheaterLiveState) (r : TheaterRawTelemetry) :
    (applyTheoreticalAch s r).vacuum = s.vacuum := by
  unfold applyTheoreticalAch; repeat' split
  all_goals rfl

@[simp] theorem applyTheoreticalAch_instrument (s : TheaterLiveState) (r : TheaterRawTelemetry) :
    (applyTheoreticalAch s r).instrument = s.instrument := by
  unfold applyTheoreticalAch; repeat' split
  all_goals rfl

@[simp] theorem applyTheoreticalAch_carbon (s : TheaterLiveState) (r : TheaterRawTelemetry) :
    (applyTheoreticalAch s r).carbon = s.carbon := by
  unfold applyTheoreticalAch; repeat' split
  all_goals rfl

@[simp] theorem applyEmpiricalAch_id (s : TheaterLiveState) (r : TheaterRawTelemetry) :
    (applyEmpiricalAch s r).id = s.id := by
  unfold applyEmpiricalAch; dsimp only; repeat' split
  all_goals rfl

@[simp] theorem applyEmpiricalAch_roomID (s : TheaterLiveState) (r : TheaterRawTelemetry) :
    (applyEmpiricalAch s r).roomID = s.roomID := by
  unfold applyEmpiricalAch; dsimp only; repeat' split
  all_goals rfl

@[simp] theorem applyEmpiricalAch_roomName (s : TheaterLiveState) (r : TheaterRawTelemetry) :
    (applyEmpiricalAch s r).roomName = s.roomName := by
  unfold applyEmpiricalAch; dsimp only; repeat' split
  all_goals rfl

@[simp] theorem applyEmpiricalAch_achTheoretical (s : TheaterLiveState) (r : TheaterRawTelemetry) :
    (applyEmpiricalAch s r).achTheoretical = s.achTheoretical := by
  unfold applyEmpiricalAch; dsimp only; repeat' split
  all_goals rfl

@[simp] theorem applyEmpiricalAch_currentTemp (s : TheaterLiveState) (r : TheaterRawTelemetry) :
    (applyEmpiricalAch s r).currentTemp = s.currentTemp := by
  unfold applyEmpiricalAch; dsimp only; repeat' split
  all_goals rfl

@[simp] theorem applyEmpiricalAch_currentPressure (s : TheaterLiveState) (r : TheaterRawTelemetry) :
    (applyEmpiricalAch s r).currentPressure = s.currentPressure := by
  unfold applyEmpiricalAch; dsimp only; repeat' split
  all_goals rfl

@[simp] theorem applyEmpiricalAch_currentLogicAhu (s : TheaterLiveState) (r : TheaterRawTelemetry) :
    (applyEmpiricalAch s r).currentLogicAhu = s.currentLogicAhu := by
  unfold applyEmpiricalAch; dsimp only; repeat' split
  all_goals rfl

@[simp] theorem applyEmpiricalAch_opStartTime (s : TheaterLiveState) (r : TheaterRawTelemetry) :
    (applyEmpiricalAch s r).opStartTime = s.opStartTime := by
  unfold applyEmpiricalAch; dsimp only; repeat' split
  all_goals rfl

@[simp] theorem applyEmpiricalAch_opAccumulatedSeconds (s : TheaterLiveState) (r : TheaterRawTelemetry) :
    (applyEmpiricalAch s r).opAccumulatedSeconds = s.opAccumulatedSeconds := by
  unfold applyEmpiricalAch; dsimp only; repeat' split
  all_goals rfl

@[simp] theorem applyEmpiricalAch_opIsRunning (s : TheaterLiveState) (r : TheaterRawTelemetry) :
    (applyEmpiricalAch s r).opIsRunning = s.opIsRunning := by
  unfold applyEmpiricalAch; dsimp only; repeat' split
  all_goals rfl

@[simp] theorem applyEmpiricalAch_cdTargetTime (s : TheaterLiveState) (r : TheaterRawTelemetry) :
    (applyEmpiricalAch s r).cdTargetTime = s.cdTargetTime := by
  unfold applyEmpiricalAch; dsimp only; repeat' split
  all_goals rfl

@[simp] theorem applyEmpiricalAch_cdDurationSeconds (s : TheaterLiveState) (r : TheaterRawTelemetry) :
    (applyEmpiricalAch s r).cdDurationSeconds = s.cdDurationSeconds := by
  unfold applyEmpiricalAch; dsimp only; repeat' split
  all_goals rfl

@[simp] theorem applyEmpiricalAch_cdIsRunning (s : TheaterLiveState) (r : TheaterRawTelemetry) :
    (applyEmpiricalAch s r).cdIsRunning = s.cdIsRunning := by
  unfold applyEmpiricalAch; dsimp only; repeat' split
  all_goals rfl

@[simp] theorem applyEmpiricalAch_lastProcessedRawID (s : TheaterLiveState) (r : TheaterRawTelemetry) :
    (applyEmpiricalAch s r).lastProcessedRawID = s.lastProcessedRawID := by
  unfold applyEmpiricalAch; dsimp only; repeat' split
  all_goals rfl

@[simp] theorem applyEmpiricalAch_lastProcessedAt (s : TheaterLiveState) (r : TheaterRawTelemetry) :
    (applyEmpiricalAch s r).lastProcessedAt = s.lastProcessedAt := by
  unfold applyEmpiricalAch; dsimp only; repeat' split
  all_goals rfl

@[simp] theorem applyEmpiricalAch_oxygen (s : TheaterLiveState) (r : TheaterRawTelemetry) :
    (applyEmpiricalAch s r).oxygen = s.oxygen := by
  unfold applyEmpiricalAch; dsimp only; repeat' split
  all_goals rfl

@[simp] theorem applyEmpiricalAch_nitrous (s : TheaterLiveState) (r : TheaterRawTelemetry) :
    (applyEmpiricalAch s r).nitrous = s.nitrous := by
  unfold applyEmpiricalAch; dsimp only; repeat' split
  all_goals rfl

@[simp] theorem applyEmpiricalAch_air (s : TheaterLiveState) (r : TheaterRawTelemetry) :
    (applyEmpiricalAch s r).air = s.air := by
  unfold applyEmpiricalAch; dsimp only; repeat' split
  all_goals rfl

@[simp] theorem applyEmpiricalAch_vacuum (s : TheaterLiveState) (r : TheaterRawTelemetry) :
    (applyEmpiricalAch s r).vacuum = s.vacuum := by
  unfold applyEmpiricalAch; dsimp only; repeat' split
  all_goals rfl

@[simp] theorem applyEmpiricalAch_instrument (s : TheaterLiveState) (r : TheaterRawTelemetry) :
    (applyEmpiricalAch s r).instrument = s.instrument := by
  unfold applyEmpiricalAch; dsimp only; repeat' split
  all_goals rfl

@[simp] theorem applyEmpiricalAch_carbon (s : TheaterLiveState) (r : TheaterRawTelemetry) :
    (applyEmpiricalAch s r).carbon = s.carbon := by
  unfold applyEmpiricalAch; dsimp only; repeat' split
  all_goals rfl

@[simp] theorem applyMirrorFields_id (s : TheaterLiveState) (r : TheaterRawTelemetry) :
    (applyMirrorFields s r).id = s.id := by
  unfold applyMirrorFields; repeat' split
  all_goals rfl

@[simp] theorem applyMirrorFields_roomID (s : TheaterLiveState) (r : TheaterRawTelemetry) :
    (applyMirrorFields s r).roomID = s.roomID := by
  unfold applyMirrorFields; repeat' split
  all_goals rfl

@[simp] theorem applyMirrorFields_roomName (s : TheaterLiveState) (r : TheaterRawTelemetry) :
    (applyMirrorFields s r).roomName = s.roomName := by
  unfold applyMirrorFields; repeat' split
  all_goals rfl

@[simp] theorem applyMirrorFields_achTheoretical (s : TheaterLiveState) (r : TheaterRawTelemetry) :
    (applyMirrorFields s r).achTheoretical = s.achTheoretical := by
  unfold applyMirrorFields; repeat' split
  all_goals rfl

@[simp] theorem applyMirrorFields_achEmpirical (s : TheaterLiveState) (r : TheaterRawTelemetry) :
    (applyMirrorFields s r).achEmpirical = s.achEmpirical := by
  unfold applyMirrorFields; repeat' split
  all_goals rfl

@[simp] theorem applyMirrorFields_opStartTime (s : TheaterLiveState) (r : TheaterRawTelemetry) :
    (applyMirrorFields s r).opStartTime = s.opStartTime := by
  unfold applyMirrorFields; repeat' split
  all_goals rfl

@[simp] theorem applyMirrorFields_opAccumulatedSeconds (s : TheaterLiveState) (r : TheaterRawTelemetry) :
    (applyMirrorFields s r).opAccumulatedSeconds = s.opAccumulatedSeconds := by
  unfold applyMirrorFields; repeat' split
  all_goals rfl

@[simp] theorem applyMirrorFields_opIsRunning (s : TheaterLiveState) (r : TheaterRawTelemetry) :
    (applyMirrorFields s r).opIsRunning = s.opIsRunning := by
  unfold applyMirrorFields; repeat' split
  all_goals rfl

@[simp] theorem applyMirrorFields_cdTargetTime (s : TheaterLiveState) (r : TheaterRawTelemetry) :
    (applyMirrorFields s r).cdTargetTime = s.cdTargetTime := by
  unfold applyMirrorFields; repeat' split
  all_goals rfl

@[simp] theorem applyMirrorFields_cdDurationSeconds (s : TheaterLiveState) (r : TheaterRawTelemetry) :
    (applyMirrorFields s r).cdDurationSeconds = s.cdDurationSeconds := by
  unfold applyMirrorFields; repeat' split
  all_goals rfl

@[simp] theorem applyMirrorFields_cdIsRunning (s : TheaterLiveState) (r : TheaterRawTelemetry) :
    (applyMirrorFields s r).cdIsRunning = s.cdIsRunning := by
  unfold applyMirrorFields; repeat' split
  all_goals rfl

@[simp] theorem applyMirrorFields_ahuCycleStartTime (s : TheaterLiveState) (r : TheaterRawTelemetry) :
    (applyMirrorFields s r).ahuCycleStartTime = s.ahuCycleStartTime := by
  unfold applyMirrorFields; repeat' split
  all_goals rfl

@[simp] theorem applyMirrorFields_lastProcessedAt (s : TheaterLiveState) (r : TheaterRawTelemetry) :
    (applyMirrorFields s r).lastProcessedAt = s.lastProcessedAt := by
  unfold applyMirrorFields; repeat' split
  all_goals rfl

@[simp] theorem applyCountdownExpiry_id (now : ℚ) (s : TheaterLiveState) :
    (applyCountdownExpiry now s).id = s.id := by
  unfold applyCountdownExpiry; repeat' split
  all_goals rfl

@[simp] theorem applyCountdownExpiry_roomID (now : ℚ) (s : TheaterLiveState) :
    (applyCountdownExpiry now s).roomID = s.roomID := by
  unfold applyCountdownExpiry; repeat' split
  all_goals rfl

@[simp] theorem applyCountdownExpiry_roomName (now : ℚ) (s : TheaterLiveState) :
    (applyCountdownExpiry now s).roomName = s.roomName := by
  unfold applyCountdownExpiry; repeat' split
  all_goals rfl

@[simp] theorem applyCountdownExpiry_achTheoretical (now : ℚ) (s : TheaterLiveState) :
    (applyCountdownExpiry now s).achTheoretical = s.achTheoretical := by
  unfold applyCountdownExpiry; repeat' split
  all_goals rfl

@[simp] theorem applyCountdownExpiry_achEmpirical (now : ℚ) (s : TheaterLiveState) :
    (applyCountdownExpiry now s).achEmpirical = s.achEmpirical := by
  unfold applyCountdownExpiry; repeat' split
  all_goals rfl

@[simp] theorem applyCountdownExpiry_currentTemp (now : ℚ) (s : TheaterLiveState) :
    (applyCountdownExpiry now s).currentTemp = s.currentTemp := by
  unfold applyCountdownExpiry; repeat' split
  all_goals rfl

@[simp] theorem applyCountdownExpiry_currentPressure (now : ℚ) (s : TheaterLiveState) :
    (applyCountdownExpiry now s).currentPressure = s.currentPressure := by
  unfold applyCountdownExpiry; repeat' split
  all_goals rfl

@[simp] theorem applyCountdownExpiry_currentLogicAhu (now : ℚ) (s : TheaterLiveState) :
    (applyCountdownExpiry now s).currentLogicAhu = s.currentLogicAhu := by
  unfold applyCountdownExpiry; repeat' split
  all_goals rfl

@[simp] theorem applyCountdownExpiry_opStartTime (now : ℚ) (s : TheaterLiveState) :
    (applyCountdownExpiry now s).opStartTime = s.opStartTime := by
  unfold applyCountdownExpiry; repeat' split
  all_goals rfl

@[simp] theorem applyCountdownExpiry_opAccumulatedSeconds (now : ℚ) (s : TheaterLiveState) :
    (applyCountdownExpiry now s).opAccumulatedSeconds = s.opAccumulatedSeconds := by
  unfold applyCountdownExpiry; repeat' split
  all_goals rfl

@[simp] theorem applyCountdownExpiry_opIsRunning (now : ℚ) (s : TheaterLiveState) :
    (applyCountdownExpiry now s).opIsRunning = s.opIsRunning := by
  unfold applyCountdownExpiry; repeat' split
  all_goals rfl

@[simp] theorem applyCountdownExpiry_cdTargetTime (now : ℚ) (s : TheaterLiveState) :
    (applyCountdownExpiry now s).cdTargetTime = s.cdTargetTime := by
  unfold applyCountdownExpiry; repeat' split
  all_goals rfl

@[simp] theorem applyCountdownExpiry_cdDurationSeconds (now : ℚ) (s : TheaterLiveState) :
    (applyCountdownExpiry now s).cdDurationSeconds = s.cdDurationSeconds := by
  unfold applyCountdownExpiry; repeat' split
  all_goals rfl

@[simp] theorem applyCountdownExpiry_ahuCycleStartTime (now : ℚ) (s : TheaterLiveState) :
    (applyCountdownExpiry now s).ahuCycleStartTime = s.ahuCycleStartTime := by
  unfold applyCountdownExpiry; repeat' split
  all_goals rfl

@[simp] theorem applyCountdownExpiry_lastProcessedRawID (now : ℚ) (s : TheaterLiveState) :
    (applyCountdownExpiry now s).lastProcessedRawID = s.lastProcessedRawID := by
  unfold applyCountdownExpiry; repeat' split
  all_goals rfl

@[simp] theorem applyCountdownExpiry_lastProcessedAt (now : ℚ) (s : TheaterLiveState) :
    (applyCountdownExpiry now s).lastProcessedAt = s.lastProcessedAt := by
  unfold applyCountdownExpiry; repeat' split
  all_goals rfl

@[simp] theorem applyCountdownExpiry_oxygen (now : ℚ) (s : TheaterLiveState) :
    (applyCountdownExpiry now s).oxygen = s.oxygen := by
  unfold applyCountdownExpiry; repeat' split
  all_goals rfl

@[simp] theorem applyCountdownExpiry_nitrous (now : ℚ) (s : TheaterLiveState) :
    (applyCountdownExpiry now s).nitrous = s.nitrous := by
  unfold applyCountdownExpiry; repeat' split
  all_goals rfl

@[simp] theorem applyCountdownExpiry_air (now : ℚ) (s : TheaterLiveState) :
    (applyCountdownExpiry now s).air = s.air := by
  unfold applyCountdownExpiry; repeat' split
  all_goals rfl

@[simp] theorem applyCountdownExpiry_vacuum (now : ℚ) (s : TheaterLiveState) :
    (applyCountdownExpiry now s).vacuum = s.vacuum := by
  unfold applyCountdownExpiry; repeat' split
  all_goals rfl

@[simp] theorem applyCountdownExpiry_instrument (now : ℚ) (s : TheaterLiveState) :
    (applyCountdownExpiry now s).instrument = s.instrument := by
  unfold applyCountdownExpiry; repeat' split
  all_goals rfl

@[simp] theorem applyCountdownExpiry_carbon (now : ℚ) (s : TheaterLiveState) :
    (applyCountdownExpiry now s).carbon = s.carbon := by
  unfold applyCountdownExpiry; repeat' split
  all_goals rfl

/-! ### Characterisation lemmas for the fields each step writes -/

theorem applyTheoreticalAch_achTheoretical (s : TheaterLiveState) (r : TheaterRawTelemetry) :
    (applyTheoreticalAch s r).achTheoretical =
      if r.lajuAliranAhu > 0 ∧ r.volumeRuangan > 0 then
        ((r.lajuAliranAhu * 3600 : ℤ) : ℚ) / (r.volumeRuangan : ℚ)
      else s.achTheoretical := by
  unfold applyTheoreticalAch; split <;> rfl

theorem applyEmpiricalAch_rising (s : TheaterLiveState) (r : TheaterRawTelemetry)
    (h0 : s.currentLogicAhu = 0) (h1 : r.logicAhu = 1) :
    applyEmpiricalAch s r = { s with ahuCycleStartTime := some r.updatedAt } := by
  unfold applyEmpiricalAch
  rw [if_pos ⟨h0, h1⟩]

theorem applyEmpiricalAch_falling_open (s : TheaterLiveState) (r : TheaterRawTelemetry)
    (start : ℚ) (h0 : s.currentLogicAhu = 1) (h1 : r.logicAhu = 0)
    (hs : s.ahuCycleStartTime = some start) :
    applyEmpiricalAch s r =
      { s with
          achEmpirical :=
            if r.updatedAt - start > 0 then 3600 / (r.updatedAt - start) else s.achEmpirical
          ahuCycleStartTime := none } := by
  unfold applyEmpiricalAch
  rw [if_neg (by simp [h0]), if_pos ⟨h0, h1⟩, hs]
  dsimp only
  split <;> simp_all

theorem applyEmpiricalAch_falling_closed (s : TheaterLiveState) (r : TheaterRawTelemetry)
    (h0 : s.currentLogicAhu = 1) (h1 : r.logicAhu = 0)
    (hs : s.ahuCycleStartTime = none) :
    applyEmpiricalAch s r = s := by
  unfold applyEmpiricalAch
  rw [if_neg (by simp [h0]), if_pos ⟨h0, h1⟩, hs]

theorem applyEmpiricalAch_noedge (s : TheaterLiveState) (r : TheaterRawTelemetry)
    (h : ¬ (s.currentLogicAhu = 0 ∧ r.logicAhu = 1))
    (h' : ¬ (s.currentLogicAhu = 1 ∧ r.logicAhu = 0)) :
    applyEmpiricalAch s r = s := by
  unfold applyEmpiricalAch
  rw [if_neg h, if_neg h']

theorem applyMirrorFields_eq (s : TheaterLiveState) (r : TheaterRawTelemetry) :
    applyMirrorFields s r =
      { s with
          currentTemp := r.temp.getD s.currentTemp
          currentPressure := r.roomPressure.getD s.currentPressure
          oxygen := r.oxygen
          nitrous := r.nitrous
          air := r.air
          vacuum := r.vacuum
          instrument := r.instrument
          carbon := r.carbon
          currentLogicAhu := r.logicAhu
          lastProcessedRawID := (r.id : ℤ) } := by
  unfold applyMirrorFields
  cases h : r.temp <;> cases h' : r.roomPressure <;> rfl

theorem applyCountdownExpiry_expired (now : ℚ) (s : TheaterLiveState) (target : ℚ)
    (hr : s.cdIsRunning = true) (ht : s.cdTargetTime = some target) (h : now > target) :
    applyCountdownExpiry now s = { s with cdIsRunning := false } := by
  simp [applyCountdownExpiry, hr, ht, h]

theorem applyCountdownExpiry_notRunning (now : ℚ) (s : TheaterLiveState)
    (hr : s.cdIsRunning = false) :
    applyCountdownExpiry now s = s := by
  simp [applyCountdownExpiry, hr]

theorem applyCountdownExpiry_noTarget (now : ℚ) (s : TheaterLiveState)
    (ht : s.cdTargetTime = none) :
    applyCountdownExpiry now s = s := by
  simp [applyCountdownExpiry, ht]

theorem applyCountdownExpiry_future (now : ℚ) (s : TheaterLiveState) (target : ℚ)
    (ht : s.cdTargetTime = some target) (h : ¬ now > target) :
    applyCountdownExpiry now s = s := by
  simp [applyCountdownExpiry, ht, h]

/-! ### Claim theorems -/

/-- C1: per-room reconciliation edge detection for the empirical ACH.  On a
rising edge (live trigger 0, raw trigger 1) the cycle-start timestamp is set
to the raw last-modified time and the empirical metric is untouched; on a
falling edge (live trigger 1, raw trigger 0) with a cycle open, the metric
becomes 3600 / duration when the duration is strictly positive, the metric
is untouched otherwise, and the cycle start is cleared in both cases; a
falling edge with no open cycle changes nothing; an unchanged trigger
changes neither the cycle state nor the metric. -/
theorem c1_empirical_ach_edges (now : ℚ) (live : TheaterLiveState) (raw : TheaterRawTelemetry) :
    (live.currentLogicAhu = 0 → raw.logicAhu = 1 →
      (processRoomTelemetry now live raw).ahuCycleStartTime = some raw.updatedAt
        ∧ (processRoomTelemetry now live raw).achEmpirical = live.achEmpirical)
    ∧ (live.currentLogicAhu = 1 → raw.logicAhu = 0 →
        (∀ start : ℚ, live.ahuCycleStartTime = some start →
          (processRoomTelemetry now live raw).ahuCycleStartTime = none
            ∧ (raw.updatedAt - start > 0 →
                (processRoomTelemetry now live raw).achEmpirical = 3600 / (raw.updatedAt - start))
            ∧ (¬ raw.updatedAt - start > 0 →
                (processRoomTelemetry now live raw).achEmpirical = live.achEmpirical))
        ∧ (live.ahuCycleStartTime = none →
            (processRoomTelemetry now live raw).ahuCycleStartTime = none
              ∧ (processRoomTelemetry now live raw).achEmpirical = live.achEmpirical))
    ∧ (raw.logicAhu = live.currentLogicAhu →
        (processRoomTelemetry now live raw).ahuCycleStartTime = live.ahuCycleStartTime
          ∧ (processRoomTelemetry now live raw).achEmpirical = live.achEmpirical) := by
  have hf : ∀ x : TheaterLiveState,
      (applyCountdownExpiry now (applyMirrorFields x raw)).ahuCycleStartTime
        = x.ahuCycleStartTime := by
    intro x; simp [applyMirrorFields_eq]
  have hg : ∀ x : TheaterLiveState,
      (applyCountdownExpiry now (applyMirrorFields x raw)).achEmpirical = x.achEmpirical := by
    intro x; simp [applyMirrorFields_eq]
  refine ⟨?_, ?_, ?_⟩
  · intro h0 h1
    unfold processRoomTelemetry
    rw [applyEmpiricalAch_rising _ raw (by simp [h0]) h1]
    exact ⟨by rw [hf], by rw [hg]; simp⟩
  · intro h0 h1
    constructor
    · intro start hstart
      unfold processRoomTelemetry
      rw [applyEmpiricalAch_falling_open _ raw start (by simp [h0]) h1 (by simp [hstart])]
      refine ⟨by rw [hf], ?_, ?_⟩
      · intro hd; rw [hg]; dsimp only; rw [if_pos hd]
      · intro hd; rw [hg]; dsimp only; rw [if_neg hd]; simp
    · intro hnone
      unfold processRoomTelemetry
      rw [applyEmpiricalAch_falling_closed _ raw (by simp [h0]) h1 (by simp [hnone])]
      exact ⟨by rw [hf]; simp [hnone], by rw [hg]; simp⟩
  · intro heq
    unfold processRoomTelemetry
    rw [applyEmpiricalAch_noedge _ raw ?_ ?_]
    · exact ⟨by rw [hf]; simp, by rw [hg]; simp⟩
    · simp only [applyTheoreticalAch_currentLogicAhu]
      rintro ⟨a, b⟩; omega
    · simp only [applyTheoreticalAch_currentLogicAhu]
      rintro ⟨a, b⟩; omega

/-- Witness for C1 at the spec's example: trigger 0→1 at t=100 starts a
cycle at 100 without touching the metric, then 1→0 at t=160 yields an
empirical ACH of 3600/60 = 60. -/
theorem c1_empirical_ach_edges_witness :
    (createLiveStateIfNotExistsRow "OT-01").currentLogicAhu = 0
      ∧ (exRaw 100 1).logicAhu = 1
      ∧ (processRoomTelemetry 0 (createLiveStateIfNotExistsRow "OT-01")
          (exRaw 100 1)).ahuCycleStartTime = some 100
      ∧ (processRoomTelemetry 0 (processRoomTelemetry 0 (createLiveStateIfNotExistsRow "OT-01")
          (exRaw 100 1)) (exRaw 160 0)).achEmpirical = 60 := by
  have h1 := (c1_empirical_ach_edges 0 (createLiveStateIfNotExistsRow "OT-01") (exRaw 100 1)).1
    rfl rfl
  have h2 := (((c1_empirical_ach_edges 0
      (processRoomTelemetry 0 (createLiveStateIfNotExistsRow "OT-01") (exRaw 100 1))
      (exRaw 160 0)).2.1 (by decide) rfl).1 100 (by decide)).2.1 (by norm_num [exRaw])
  refine ⟨rfl, rfl, by simpa using h1.1, ?_⟩
  rw [h2]; norm_num [exRaw]

/-- C2: theoretical ACH.  When both the flow rate and the volume are
strictly positive, reconciliation sets the theoretical ACH to
(flow * 3600) / volume and the divisor is non-zero; otherwise the previous
value is kept. -/
theorem c2_theoretical_ach (now : ℚ) (live : TheaterLiveState) (raw : TheaterRawTelemetry) :
    (raw.lajuAliranAhu > 0 ∧ raw.volumeRuangan > 0 →
      (processRoomTelemetry now live raw).achTheoretical
          = ((raw.lajuAliranAhu * 3600 : ℤ) : ℚ) / (raw.volumeRuangan : ℚ)
        ∧ (raw.volumeRuangan : ℚ) ≠ 0)
    ∧ (¬ (raw.lajuAliranAhu > 0 ∧ raw.volumeRuangan > 0) →
      (processRoomTelemetry now live raw).achTheoretical = live.achTheoretical) := by
  have hth : (processRoomTelemetry now live raw).achTheoretical
      = (applyTheoreticalAch live raw).achTheoretical := by
    unfold processRoomTelemetry
    simp [applyMirrorFields_eq]
  constructor
  · intro h
    refine ⟨by rw [hth, applyTheoreticalAch_achTheoretical, if_pos h], ?_⟩
    have : (0 : ℚ) < (raw.volumeRuangan : ℚ) := by exact_mod_cast h.2
    exact this.ne'
  · intro h
    rw [hth, applyTheoreticalAch_achTheoretical, if_neg h]

/-- Witness for C2 at the spec's examples: flow 500 and volume 100 give a
theoretical ACH of 18000, and a zero flow rate keeps a prior value of 5. -/
theorem c2_theoretical_ach_witness :
    ((exRaw 10 0).lajuAliranAhu > 0 ∧ (exRaw 10 0).volumeRuangan > 0 → False)
      ∧ (processRoomTelemetry 0 { createLiveStateIfNotExistsRow "OT-01" with achTheoretical := 5 }
          (exRaw 10 0)).achTheoretical = 5
      ∧ ({ exRaw 10 0 with lajuAliranAhu := 500, volumeRuangan := 100 }.lajuAliranAhu > 0
          ∧ { exRaw 10 0 with lajuAliranAhu := 500, volumeRuangan := 100 }.volumeRuangan > 0)
      ∧ (processRoomTelemetry 0 (createLiveStateIfNotExistsRow "OT-01")
          { exRaw 10 0 with lajuAliranAhu := 500, volumeRuangan := 100 }).achTheoretical = 18000 := by
  have h1 := (c2_theoretical_ach 0 { createLiveStateIfNotExistsRow "OT-01" with achTheoretical := 5 }
    (exRaw 10 0)).2 (by decide)
  have h2 := (c2_theoretical_ach 0 (createLiveStateIfNotExistsRow "OT-01")
    { exRaw 10 0 with lajuAliranAhu := 500, volumeRuangan := 100 }).1 (by decide)
  refine ⟨by decide, by rw [h1], by decide, ?_⟩
  rw [h2.1]; norm_num

/-- C3: change-detection gating.  A room with a last-processed timestamp at
or above the raw last-modified time is skipped entirely (the live state is
returned unchanged, countdown-expiry check included); a processed room ends
with its last-processed timestamp set to the raw last-modified time; hence
running the per-room step twice on the same raw row equals running it once. -/
theorem c3_idempotent_reconciliation (now1 now2 : ℚ) (live : TheaterLiveState)
    (raw : TheaterRawTelemetry) :
    (∀ lp : ℚ, live.lastProcessedAt = some lp → ¬ raw.updatedAt > lp →
        processNewTelemetryStep now1 live raw = live)
    ∧ ((live.lastProcessedAt = none
          ∨ ∃ lp : ℚ, live.lastProcessedAt = some lp ∧ raw.updatedAt > lp) →
        (processNewTelemetryStep now1 live raw).lastProcessedAt = some raw.updatedAt)
    ∧ processNewTelemetryStep now2 (processNewTelemetryStep now1 live raw) raw
        = processNewTelemetryStep now1 live raw := by
  refine ⟨?_, ?_, ?_⟩
  · intro lp hlp h
    simp [processNewTelemetryStep, hlp, h]
  · rintro (hn | ⟨lp, hlp, h⟩)
    · simp [processNewTelemetryStep, hn]
    · simp [processNewTelemetryStep, hlp, h]
  · rcases hlp : live.lastProcessedAt with _ | lp
    · have h1 : (processNewTelemetryStep now1 live raw).lastProcessedAt
          = some raw.updatedAt := by
        simp [processNewTelemetryStep, hlp]
      generalize hS : processNewTelemetryStep now1 live raw = S at h1 ⊢
      simp [processNewTelemetryStep, h1]
    · by_cases h : raw.updatedAt > lp
      · have h1 : (processNewTelemetryStep now1 live raw).lastProcessedAt
            = some raw.updatedAt := by
          simp [processNewTelemetryStep, hlp, h]
        generalize hS : processNewTelemetryStep now1 live raw = S at h1 ⊢
        simp [processNewTelemetryStep, h1]
      · have h1 : processNewTelemetryStep now1 live raw = live := by
          simp [processNewTelemetryStep, hlp, h]
        rw [h1]
        simp [processNewTelemetryStep, hlp, h]

/-- Witness for C3: after a first reconciliation of a fresh room the
last-processed timestamp equals the raw timestamp, and a second
reconciliation with the same raw row changes nothing. -/
theorem c3_idempotent_reconciliation_witness :
    (processNewTelemetryStep 0 (createLiveStateIfNotExistsRow "OT-01")
        (exRaw 100 1)).lastProcessedAt = some 100
    ∧ processNewTelemetryStep 0 (processNewTelemetryStep 0
        (createLiveStateIfNotExistsRow "OT-01") (exRaw 100 1)) (exRaw 100 1)
        = processNewTelemetryStep 0 (createLiveStateIfNotExistsRow "OT-01") (exRaw 100 1) := by
  have h := c3_idempotent_reconciliation 0 0 (createLiveStateIfNotExistsRow "OT-01") (exRaw 100 1)
  exact ⟨by simpa [exRaw] using h.2.1 (Or.inl rfl), h.2.2⟩

/-- Counterexample for C4 as stated: with the countdown running toward
target 100 and the wall clock exactly at 100 ("at the target"), the code's
strict `time.Now().After(target)` check does not fire, so reconciliation
leaves the running flag true where the claim demands false. -/
theorem c4_countdown_expiry_counterexample :
    ¬ (processRoomTelemetry 100 cdLive (exRaw 50 0)).cdIsRunning = false := by
  decide

/-- C4 amended: the countdown expiry fires only when the wall clock is
strictly past the target: in that case the running flag is cleared and the
target is untouched; when the clock is at or before the target, or the
countdown is not running, or no target is set, the countdown fields are
unchanged. -/
theorem c4_countdown_expiry (now : ℚ) (live : TheaterLiveState)
    (raw : TheaterRawTelemetry) (target : ℚ) :
    (live.cdIsRunning = true → live.cdTargetTime = some target → now > target →
        (processRoomTelemetry now live raw).cdIsRunning = false
          ∧ (processRoomTelemetry now live raw).cdTargetTime = some target)
    ∧ (live.cdIsRunning = true → live.cdTargetTime = some target → ¬ now > target →
        (processRoomTelemetry now live raw).cdIsRunning = true
          ∧ (processRoomTelemetry now live raw).cdTargetTime = some target)
    ∧ (live.cdIsRunning = false →
        (processRoomTelemetry now live raw).cdIsRunning = false
          ∧ (processRoomTelemetry now live raw).cdTargetTime = live.cdTargetTime)
    ∧ (live.cdTargetTime = none →
        (processRoomTelemetry now live raw).cdIsRunning = live.cdIsRunning
          ∧ (processRoomTelemetry now live raw).cdTargetTime = none) := by
  refine ⟨?_, ?_, ?_, ?_⟩
  · intro h1 h2 h3
    unfold processRoomTelemetry
    rw [applyCountdownExpiry_expired now _ target (by simp [applyMirrorFields_eq, h1])
      (by simp [applyMirrorFields_eq, h2]) h3]
    exact ⟨rfl, by simp [applyMirrorFields_eq, h2]⟩
  · intro h1 h2 h3
    unfold processRoomTelemetry
    rw [applyCountdownExpiry_future now _ target (by simp [applyMirrorFields_eq, h2]) h3]
    exact ⟨by simp [applyMirrorFields_eq, h1], by simp [applyMirrorFields_eq, h2]⟩
  · intro h1
    unfold processRoomTelemetry
    rw [applyCountdownExpiry_notRunning now _ (by simp [applyMirrorFields_eq, h1])]
    exact ⟨by simp [applyMirrorFields_eq, h1], by simp [applyMirrorFields_eq]⟩
  · intro h1
    unfold processRoomTelemetry
    rw [applyCountdownExpiry_noTarget now _ (by simp [applyMirrorFields_eq, h1])]
    exact ⟨by simp [applyMirrorFields_eq], by simp [applyMirrorFields_eq, h1]⟩

/-- Witness for C4 (amended): at wall-clock 101, strictly past the target
100, reconciliation clears the running flag and keeps the target. -/
theorem c4_countdown_expiry_witness :
    (processRoomTelemetry 101 cdLive (exRaw 50 0)).cdIsRunning = false
      ∧ (processRoomTelemetry 101 cdLive (exRaw 50 0)).cdTargetTime = some 100 :=
  (c4_countdown_expiry 101 cdLive (exRaw 50 0) 100).1 rfl rfl (by norm_num)

/-- Counterexample for C5 as stated: a raw row identified only by room id
(room_id = 7, empty room name) with no live-state row is skipped with a
warning by the worker; no default live state is created for it, contrary to
the claim that auto-provisioning happens regardless of which identifier the
row carries. -/
theorem c5_auto_provisioning_counterexample :
    processNewTelemetryDispatch (fun _ => none) (fun _ => none)
        { exRaw 100 1 with roomID := some 7, roomName := "" }
      = WorkerRoomAction.skippedCannotCreate
    ∧ ∀ name : String,
        processNewTelemetryDispatch (fun _ => none) (fun _ => none)
          { exRaw 100 1 with roomID := some 7, roomName := "" }
        ≠ WorkerRoomAction.createThenProcess name := by
  refine ⟨rfl, ?_⟩
  intro name h
  simp [processNewTelemetryDispatch, exRaw] at h

/-- C5 amended: a raw snapshot with no corresponding live-state row is
auto-provisioned only when it carries a room name: the worker then creates
the default live state (all metrics zero, timers inactive) and reconciles
against it; a raw row identified only by a room id (empty room name) with
no live-state row is skipped without creating anything, and a row with
neither identifier is skipped. -/
theorem c5_auto_provisioning (byID : ℕ → Option TheaterLiveState)
    (byName : String → Option TheaterLiveState) (raw : TheaterRawTelemetry) :
    (raw.roomName ≠ "" →
      (∀ rid : ℕ, raw.roomID = some rid → byID rid = none) →
      (raw.roomID = none → byName raw.roomName = none) →
      processNewTelemetryDispatch byID byName raw
        = WorkerRoomAction.createThenProcess raw.roomName)
    ∧ ((createLiveStateIfNotExistsRow raw.roomName).achTheoretical = 0
        ∧ (createLiveStateIfNotExistsRow raw.roomName).achEmpirical = 0
        ∧ (createLiveStateIfNotExistsRow raw.roomName).currentTemp = 0
        ∧ (createLiveStateIfNotExistsRow raw.roomName).currentPressure = 0
        ∧ (createLiveStateIfNotExistsRow raw.roomName).opIsRunning = false
        ∧ (createLiveStateIfNotExistsRow raw.roomName).opStartTime = none
        ∧ (createLiveStateIfNotExistsRow raw.roomName).opAccumulatedSeconds = 0
        ∧ (createLiveStateIfNotExistsRow raw.roomName).cdIsRunning = false
        ∧ (createLiveStateIfNotExistsRow raw.roomName).cdTargetTime = none
        ∧ (createLiveStateIfNotExistsRow raw.roomName).ahuCycleStartTime = none
        ∧ (createLiveStateIfNotExistsRow raw.roomName).lastProcessedAt = none)
    ∧ (raw.roomName = "" → ∀ rid : ℕ, raw.roomID = some rid → byID rid = none →
        processNewTelemetryDispatch byID byName raw
          = WorkerRoomAction.skippedCannotCreate)
    ∧ (raw.roomName = "" → raw.roomID = none →
        processNewTelemetryDispatch byID byName raw
          = WorkerRoomAction.skippedNoIdentifier) := by
  refine ⟨?_, ?_, ?_, ?_⟩
  · intro hname hid hnone
    rcases hrid : raw.roomID with _ | rid
    · simp [processNewTelemetryDispatch, hrid, hname, hnone hrid]
    · simp [processNewTelemetryDispatch, hrid, hname, hid rid hrid]
  · simp [createLiveStateIfNotExistsRow]
  · intro hname rid hrid hbyid
    simp [processNewTelemetryDispatch, hrid, hname, hbyid]
  · intro hname hrid
    simp [processNewTelemetryDispatch, hrid, hname]

/-- Witness for C5 (amended): a name-only raw row with no live state in
either lookup map is auto-provisioned. -/
theorem c5_auto_provisioning_witness :
    processNewTelemetryDispatch (fun _ => none) (fun _ => none)
        { exRaw 100 1 with roomID := none, roomName := "OT-02" }
      = WorkerRoomAction.createThenProcess "OT-02" :=
  (c5_auto_provisioning (fun _ => none) (fun _ => none)
      { exRaw 100 1 with roomID := none, roomName := "OT-02" }).1
    (by simp [exRaw]) (by simp [exRaw]) (fun _ => rfl)

/-- C6: mirrored sensor fields.  Temperature and pressure are copied only
when the raw reading is present (a null reading keeps the previous mirrored
value); the six gas readings are copied verbatim, nulls included; and the
mirrored trigger is set to the raw trigger unconditionally. -/
theorem c6_mirrored_fields (now : ℚ) (live : TheaterLiveState) (raw : TheaterRawTelemetry) :
    (∀ t : ℚ, raw.temp = some t → (processRoomTelemetry now live raw).currentTemp = t)
    ∧ (raw.temp = none → (processRoomTelemetry now live raw).currentTemp = live.currentTemp)
    ∧ (∀ p : ℚ, raw.roomPressure = some p →
        (processRoomTelemetry now live raw).currentPressure = p)
    ∧ (raw.roomPressure = none →
        (processRoomTelemetry now live raw).currentPressure = live.currentPressure)
    ∧ (processRoomTelemetry now live raw).oxygen = raw.oxygen
    ∧ (processRoomTelemetry now live raw).nitrous = raw.nitrous
    ∧ (processRoomTelemetry now live raw).air = raw.air
    ∧ (processRoomTelemetry now live raw).vacuum = raw.vacuum
    ∧ (processRoomTelemetry now live raw).instrument = raw.instrument
    ∧ (processRoomTelemetry now live raw).carbon = raw.carbon
    ∧ (processRoomTelemetry now live raw).currentLogicAhu = raw.logicAhu := by
  unfold processRoomTelemetry
  refine ⟨?_, ?_, ?_, ?_, ?_, ?_, ?_, ?_, ?_, ?_, ?_⟩
  · intro t ht; simp [applyMirrorFields_eq, ht]
  · intro ht; simp [applyMirrorFields_eq, ht]
  · intro p hp; simp [applyMirrorFields_eq, hp]
  · intro hp; simp [applyMirrorFields_eq, hp]
  all_goals simp [applyMirrorFields_eq]

/-- Witness for C6: a raw row with null temperature and a null oxygen
reading keeps the previous mirrored temperature 22 but overwrites the
previous oxygen reading 95 with null. -/
theorem c6_mirrored_fields_witness :
    (exRaw 10 0).temp = none
    ∧ (processRoomTelemetry 0
        { createLiveStateIfNotExistsRow "OT-01" with currentTemp := 22, oxygen := some 95 }
        (exRaw 10 0)).currentTemp = 22
    ∧ (processRoomTelemetry 0
        { createLiveStateIfNotExistsRow "OT-01" with currentTemp := 22, oxygen := some 95 }
        (exRaw 10 0)).oxygen = none := by
  have h := c6_mirrored_fields 0
    { createLiveStateIfNotExistsRow "OT-01" with currentTemp := 22, oxygen := some 95 }
    (exRaw 10 0)
  exact ⟨rfl, h.2.1 rfl, h.2.2.2.2.1⟩

/-! ### Helper lemmas about the trigger/cycle state machine -/

theorem processRoomTelemetry_currentLogicAhu (now : ℚ) (s : TheaterLiveState)
    (raw : TheaterRawTelemetry) :
    (processRoomTelemetry now s raw).currentLogicAhu = raw.logicAhu := by
  unfold processRoomTelemetry
  simp [applyMirrorFields_eq]

theorem processRoomTelemetry_ahuCycleStartTime (now : ℚ) (s : TheaterLiveState)
    (raw : TheaterRawTelemetry) :
    (processRoomTelemetry now s raw).ahuCycleStartTime =
      if s.currentLogicAhu = 0 ∧ raw.logicAhu = 1 then some raw.updatedAt
      else if s.currentLogicAhu = 1 ∧ raw.logicAhu = 0 then none
      else s.ahuCycleStartTime := by
  by_cases h1 : s.currentLogicAhu = 0 ∧ raw.logicAhu = 1
  · unfold processRoomTelemetry
    rw [applyEmpiricalAch_rising _ raw (by simp [h1.1]) h1.2]
    simp [applyMirrorFields_eq, h1]
  · by_cases h2 : s.currentLogicAhu = 1 ∧ raw.logicAhu = 0
    · rcases hc : s.ahuCycleStartTime with _ | start
      · unfold processRoomTelemetry
        rw [applyEmpiricalAch_falling_closed _ raw (by simp [h2.1]) h2.2 (by simp [hc])]
        simp [applyMirrorFields_eq, h1, h2, hc]
      · unfold processRoomTelemetry
        rw [applyEmpiricalAch_falling_open _ raw start (by simp [h2.1]) h2.2 (by simp [hc])]
        simp [applyMirrorFields_eq, h1, h2]
    · unfold processRoomTelemetry
      rw [applyEmpiricalAch_noedge _ raw (by simpa using h1) (by simpa using h2)]
      simp [applyMirrorFields_eq, h1, h2]

/-- One reconciliation step preserves the cycle/trigger invariant when the
raw trigger is the documented 0/1 flag. -/
theorem cycleInvariant_step (now : ℚ) (s : TheaterLiveState) (raw : TheaterRawTelemetry)
    (hs : s.ahuCycleStartTime ≠ none ↔ s.currentLogicAhu = 1)
    (hcur : s.currentLogicAhu = 0 ∨ s.currentLogicAhu = 1)
    (hraw : raw.logicAhu = 0 ∨ raw.logicAhu = 1) :
    ((processRoomTelemetry now s raw).ahuCycleStartTime ≠ none
        ↔ (processRoomTelemetry now s raw).currentLogicAhu = 1)
    ∧ ((processRoomTelemetry now s raw).currentLogicAhu = 0
        ∨ (processRoomTelemetry now s raw).currentLogicAhu = 1) := by
  rw [processRoomTelemetry_currentLogicAhu, processRoomTelemetry_ahuCycleStartTime]
  refine ⟨?_, hraw⟩
  rcases hcur with hcur | hcur <;> rcases hraw with hraw | hraw
  · have h0 : ¬ (s.currentLogicAhu = 0 ∧ raw.logicAhu = 1) := by omega
    have h0' : ¬ (s.currentLogicAhu = 1 ∧ raw.logicAhu = 0) := by omega
    rw [if_neg h0, if_neg h0']
    simp only [hraw, hs, hcur]
  · rw [if_pos ⟨hcur, hraw⟩]
    simp [hraw]
  · rw [if_neg (by omega), if_pos ⟨hcur, hraw⟩]
    simp [hraw]
  · have h0 : ¬ (s.currentLogicAhu = 0 ∧ raw.logicAhu = 1) := by omega
    have h0' : ¬ (s.currentLogicAhu = 1 ∧ raw.logicAhu = 0) := by omega
    rw [if_neg h0, if_neg h0']
    simp only [hraw, hs, hcur]

/-- The invariant carried to whole traces, generalised over the start
state. -/
theorem processTrace_invariant (inputs : List (ℚ × TheaterRawTelemetry))
    (s : TheaterLiveState)
    (hs : s.ahuCycleStartTime ≠ none ↔ s.currentLogicAhu = 1)
    (hcur : s.currentLogicAhu = 0 ∨ s.currentLogicAhu = 1)
    (htr : ∀ p ∈ inputs, p.2.logicAhu = 0 ∨ p.2.logicAhu = 1) :
    ((processTrace s inputs).ahuCycleStartTime ≠ none
        ↔ (processTrace s inputs).currentLogicAhu = 1)
    ∧ ((processTrace s inputs).currentLogicAhu = 0
        ∨ (processTrace s inputs).currentLogicAhu = 1) := by
  induction inputs generalizing s with
  | nil => exact ⟨hs, hcur⟩
  | cons p rest ih =>
      have hstep := cycleInvariant_step p.1 s p.2 hs hcur (htr p (by simp))
      exact ih (processRoomTelemetry p.1 s p.2) hstep.1 hstep.2
        (fun q hq => htr q (by simp [hq]))

/-- The mirrored trigger after a trace is the last raw trigger processed,
with the start state's trigger as the baseline. -/
theorem processTrace_currentLogicAhu (inputs : List (ℚ × TheaterRawTelemetry))
    (s : TheaterLiveState) :
    (processTrace s inputs).currentLogicAhu
      = (inputs.map fun p => p.2.logicAhu).getLastD s.currentLogicAhu := by
  induction inputs generalizing s with
  | nil => rfl
  | cons p rest ih =>
      rw [processTrace, List.foldl_cons, List.map_cons, List.getLastD_cons]
      rw [← processRoomTelemetry_currentLogicAhu p.1 s p.2]
      exact ih (processRoomTelemetry p.1 s p.2)

/-- C7: for every live state reachable from the freshly provisioned default
state by reconciliation steps whose raw triggers are the documented 0/1
flag values, the cycle-start timestamp is non-null exactly when the trigger
was last observed as 1 (i.e. a 0→1 edge has happened with no 1→0 edge
since); in particular a non-null cycle start forces the mirrored trigger to
be 1.  The mirrored trigger itself always equals the last raw trigger of
the trace (baseline 0 for the empty trace). -/
theorem c7_cycle_start_invariant (roomName : String)
    (inputs : List (ℚ × TheaterRawTelemetry))
    (htr : ∀ p ∈ inputs, p.2.logicAhu = 0 ∨ p.2.logicAhu = 1) :
    ((processTrace (createLiveStateIfNotExistsRow roomName) inputs).ahuCycleStartTime ≠ none
        ↔ (processTrace (createLiveStateIfNotExistsRow roomName) inputs).currentLogicAhu = 1)
    ∧ ((processTrace (createLiveStateIfNotExistsRow roomName) inputs).ahuCycleStartTime ≠ none
        → (processTrace (createLiveStateIfNotExistsRow roomName) inputs).currentLogicAhu = 1)
    ∧ (processTrace (createLiveStateIfNotExistsRow roomName) inputs).currentLogicAhu
        = lastTrigger inputs := by
  have h := processTrace_invariant inputs (createLiveStateIfNotExistsRow roomName)
    (by simp [createLiveStateIfNotExistsRow]) (Or.inl rfl) htr
  exact ⟨h.1, h.1.mp, processTrace_currentLogicAhu inputs _⟩

/-- Witness for C7: after the single trace [trigger 1 at t=100] from the
fresh state, the cycle start is non-null and the mirrored trigger is 1. -/
theorem c7_cycle_start_invariant_witness :
    (processTrace (createLiveStateIfNotExistsRow "OT-01") [(0, exRaw 100 1)]).ahuCycleStartTime
        ≠ none
    ∧ (processTrace (createLiveStateIfNotExistsRow "OT-01")
        [(0, exRaw 100 1)]).currentLogicAhu = 1 := by
  have h := c7_cycle_start_invariant "OT-01" [(0, exRaw 100 1)]
    (by intro p hp; rw [List.mem_singleton] at hp; subst hp; right; rfl)
  have hcur : (processTrace (createLiveStateIfNotExistsRow "OT-01")
      [(0, exRaw 100 1)]).currentLogicAhu = 1 := by decide
  exact ⟨h.1.mpr hcur, hcur⟩

/-- C8: the countdown adjust operation rejects a stopped countdown and a
missing target with an error (writing nothing); when running with a target
set, it adds the signed minutes to the target and clamps a result that
would land in the past to now + 1 second, touching only the target field. -/
theorem c8_adjust_countdown (now : ℚ) (state : TheaterLiveState) (minutes : ℤ) :
    (state.cdIsRunning = false →
      adjustCountdownTimer now state minutes = .error "countdown timer is not running")
    ∧ (state.cdIsRunning = true → state.cdTargetTime = none →
      adjustCountdownTimer now state minutes
        = .error "countdown timer has no target time set")
    ∧ (∀ target : ℚ, state.cdIsRunning = true → state.cdTargetTime = some target →
      adjustCountdownTimer now state minutes
        = .ok { state with
                  cdTargetTime := some
                    (if target + (minutes : ℚ) * 60 < now then now + 1
                     else target + (minutes : ℚ) * 60) }) := by
  refine ⟨?_, ?_, ?_⟩
  · intro h
    simp [adjustCountdownTimer, h]
  · intro h ht
    simp [adjustCountdownTimer, h, ht]
  · intro target h ht
    simp [adjustCountdownTimer, h, ht]

/-- Witness for C8 at the spec's example, with now = 0: target now+30s and
adjust(-1 minute) would give now-30s, which is clamped to now+1s. -/
theorem c8_adjust_countdown_witness :
    adjustCountdownTimer 0
        { createLiveStateIfNotExistsRow "OT-01" with cdIsRunning := true, cdTargetTime := some 30 }
        (-1)
      = .ok { createLiveStateIfNotExistsRow "OT-01" with
                cdIsRunning := true, cdTargetTime := some 1 } := by
  have h := (c8_adjust_countdown 0
    { createLiveStateIfNotExistsRow "OT-01" with cdIsRunning := true, cdTargetTime := some 30 }
    (-1)).2.2 30 rfl rfl
  rw [h]
  norm_num

/-- C9: timer-control preconditions.  Stopwatch start when running,
stopwatch stop when stopped, countdown start when running and countdown
stop when stopped are each rejected with an error before any update is
written; a permitted stopwatch start records the start timestamp and sets
the running flag; a permitted stopwatch stop adds the elapsed whole seconds
to the accumulated total and clears the running flag, touching nothing
else. -/
theorem c9_timer_preconditions (now : ℚ) (state : TheaterLiveState) :
    (state.opIsRunning = true →
      updateOperationTimer now state "start" = .error "timer is already running")
    ∧ (state.opIsRunning = false →
      updateOperationTimer now state "stop" = .error "timer is not running")
    ∧ (state.cdIsRunning = true → ∀ d : Option ℤ,
      updateCountdownTimer now state "start" d
        = .error "countdown timer is already running")
    ∧ (state.cdIsRunning = false → ∀ d : Option ℤ,
      updateCountdownTimer now state "stop" d
        = .error "countdown timer is not running")
    ∧ (state.opIsRunning = false →
      updateOperationTimer now state "start"
        = .ok { state with opStartTime := some now, opIsRunning := true })
    ∧ (∀ start : ℚ, state.opIsRunning = true → state.opStartTime = some start →
      updateOperationTimer now state "stop"
        = .ok { state with
                  opAccumulatedSeconds :=
                    state.opAccumulatedSeconds + intTrunc (now - start)
                  opIsRunning := false }) := by
  refine ⟨?_, ?_, ?_, ?_, ?_, ?_⟩
  · intro h
    simp [updateOperationTimer, h]
  · intro h
    simp [updateOperationTimer, h]
  · intro h d
    simp [updateCountdownTimer, h]
  · intro h d
    simp [updateCountdownTimer, h]
  · intro h
    simp [updateOperationTimer, h]
  · intro start h hst
    simp [updateOperationTimer, h, hst]

/-- Witness for C9: starting a running stopwatch errors; stopping a
stopwatch started at t=10 at t=25 accumulates 15 seconds and stops it. -/
theorem c9_timer_preconditions_witness :
    updateOperationTimer 25
        { createLiveStateIfNotExistsRow "OT-01" with opIsRunning := true, opStartTime := some 10 }
        "start" = .error "timer is already running"
    ∧ updateOperationTimer 25
        { createLiveStateIfNotExistsRow "OT-01" with opIsRunning := true, opStartTime := some 10 }
        "stop"
      = .ok { createLiveStateIfNotExistsRow "OT-01" with
                opIsRunning := false, opStartTime := some 10, opAccumulatedSeconds := 15 } := by
  have h := c9_timer_preconditions 25
    { createLiveStateIfNotExistsRow "OT-01" with opIsRunning := true, opStartTime := some 10 }
  refine ⟨h.1 rfl, ?_⟩
  rw [h.2.2.2.2.2 10 rfl rfl]
  norm_num [intTrunc, createLiveStateIfNotExistsRow]

/-- C10: reconciliation never touches the admin stopwatch fields, the
countdown target or the countdown duration; among the admin timer fields
only the countdown running flag can change, and only from true to false. -/
theorem c10_reconciliation_frame (now : ℚ) (live : TheaterLiveState)
    (raw : TheaterRawTelemetry) :
    (processRoomTelemetry now live raw).opStartTime = live.opStartTime
    ∧ (processRoomTelemetry now live raw).opAccumulatedSeconds = live.opAccumulatedSeconds
    ∧ (processRoomTelemetry now live raw).opIsRunning = live.opIsRunning
    ∧ (processRoomTelemetry now live raw).cdTargetTime = live.cdTargetTime
    ∧ (processRoomTelemetry now live raw).cdDurationSeconds = live.cdDurationSeconds
    ∧ ((processRoomTelemetry now live raw).cdIsRunning = true → live.cdIsRunning = true) := by
  have key : ∀ s : TheaterLiveState, (applyCountdownExpiry now s).cdIsRunning = true →
      s.cdIsRunning = true := by
    intro s h
    unfold applyCountdownExpiry at h
    repeat' split at h
    all_goals simp_all
  refine ⟨?_, ?_, ?_, ?_, ?_, ?_⟩
  · unfold processRoomTelemetry; simp [applyMirrorFields_eq]
  · unfold processRoomTelemetry; simp [applyMirrorFields_eq]
  · unfold processRoomTelemetry; simp [applyMirrorFields_eq]
  · unfold processRoomTelemetry; simp [applyMirrorFields_eq]
  · unfold processRoomTelemetry; simp [applyMirrorFields_eq]
  · intro h
    unfold processRoomTelemetry at h
    have := key _ h
    simpa [applyMirrorFields_eq] using this

/-- Witness for C10: with the countdown running toward target 100 and the
clock at 50 (before the target), reconciliation keeps the running flag
true, so the implication's hypothesis is realised and the prior state was
indeed running. -/
theorem c10_reconciliation_frame_witness :
    cdLive.cdIsRunning = true
      ∧ (processRoomTelemetry 50 cdLive (exRaw 50 0)).cdIsRunning = true :=
  ⟨(c10_reconciliation_frame 50 cdLive (exRaw 50 0)).2.2.2.2.2 (by decide), by decide⟩
